import Mathlib

/-!
Verification of the vSphere cloud-account lifecycle reconciler
(`src/vra/resource_cloud_account_vsphere.go`).

The Go source under `src/` defines the CRUD handlers
(`resourceCloudAccountVsphereCreate/Read/Update/Delete`) and the resource
wiring (schema, passthrough importer).  Helper routines referenced there
(`compareUnique`, `flattenAndNormalizeCloudAccountVsphereRegionIds`,
`expandStringList`, `expandTags`, `flattenTags`,
`flattenAssociatedCloudAccountIds`, `flattenLinks`) live elsewhere in the
repository and are modelled from the specification where their behaviour
matters; mechanical tag/link plumbing is modelled as the identity on the
already-normalized shape.
-/

namespace VraVsphere

/-- A tag, key/value pair (`models.Tag`).  Tag encode/decode
(`expandTags`/`flattenTags`) is mechanical plumbing; a tag is modelled
directly as the pair. -/
structure Tag where
  key : String
  value : String
deriving Repr, DecidableEq

/-- A hyperlink reference from the remote response, in the normalized shape
the spec gives for the link collection: relation-type marker plus target
path (the identifier is embedded in the target path's suffix). -/
structure Link where
  rel : String
  href : String
deriving Repr, DecidableEq

/-- Relation-type marker for per-region resource links. -/
def regionLinkRel : String := "regions"

/-- Relation-type marker indicating an associated cloud account link. -/
def associatedAccountLinkRel : String := "associated-cloud-accounts"

/-- The remote resource state (`models.CloudAccountVsphere` payload), with
the fields the handlers read. -/
structure CloudAccountVsphere where
  ID : String
  CreatedAt : String
  CustomProperties : List (String × String)
  Dcid : String
  Description : String
  EnabledRegionIds : List String
  HostName : String
  Name : String
  OrgID : String
  Owner : String
  Tags : List Tag
  UpdatedAt : String
  Username : String
  Links : List Link
deriving Repr, DecidableEq

/-- The create request body (`models.CloudAccountVsphereSpecification`)
with exactly the fields the Create handler sets. -/
structure CloudAccountVsphereSpecification where
  acceptSelfSignedCertificate : Bool
  associatedCloudAccountIds : List String
  createDefaultZones : Bool
  dcid : String
  description : String
  hostName : String
  name : String
  password : String
  regionIds : List String
  tags : List Tag
  username : String
deriving Repr, DecidableEq

/-- The update request body
(`models.UpdateCloudAccountVsphereSpecification`) with exactly the fields
the Update handler sets: per the spec only `description`, `regions`
and `tags` are sendable, plus the always-false default-zones flag. -/
structure UpdateCloudAccountVsphereSpecification where
  createDefaultZones : Bool
  description : String
  regionIds : List String
  tags : List Tag
deriving Repr, DecidableEq

/-- The local declarative record (`schema.ResourceData` for this resource):
one field per schema entry.  `id = ""` models the absent/unset identifier
(Terraform's zero value), per the spec invariant that `id` is empty exactly
in the not-yet-created/deleted states. -/
structure ResourceData where
  id : String
  hostname : String
  name : String
  password : String
  username : String
  regions : List String
  accept_self_signed_cert : Bool
  associated_cloud_account_ids : List String
  dcid : String
  description : String
  tags : List Tag
  created_at : String
  custom_properties : List (String × String)
  links : List Link
  org_id : String
  owner : String
  region_ids : List String
  updated_at : String
deriving Repr, DecidableEq

/-- Structured errors (the `diag.Diagnostics` the handlers return, plus
the failure of an import).  `validationError` carries the exact message
built with `errors.New` in the source. -/
inductive Diag where
  | validationError (msg : String)
  | apiError (msg : String)
  | malformedLink (href : String)
  | importNotFound (id : String)
deriving Repr, DecidableEq

/-- Result of a non-get remote call. -/
inductive ApiResult (α : Type) where
  | ok (val : α)
  | err (msg : String)
deriving Repr

/-- Result of the get-by-id call, distinguishing the not-found error type
(`cloud_account.GetVSphereCloudAccountNotFound`) the Read handler switches
on. -/
inductive GetResult where
  | ok (acct : CloudAccountVsphere)
  | notFound
  | otherError (msg : String)
deriving Repr

/-- One network request issued against the remote API, with the body it
carried.  The handlers are given below as functions that also return the
trace of calls they issued, so that "performs zero network calls" and
"the body sent" are stated directly. -/
inductive ApiCall where
  | createCall (spec : CloudAccountVsphereSpecification)
  | getCall (id : String)
  | updateCall (id : String) (spec : UpdateCloudAccountVsphereSpecification)
  | deleteCall (id : String)
deriving Repr, DecidableEq

/-- The remote control-plane client (`apiClient.CloudAccount`), one method
per endpoint the handlers use; behaviour is supplied by the environment. -/
structure Api where
  createAccount : CloudAccountVsphereSpecification → ApiResult CloudAccountVsphere
  getAccount : String → GetResult
  updateAccount : String → UpdateCloudAccountVsphereSpecification → ApiResult CloudAccountVsphere
  deleteAccount : String → ApiResult Unit

/-- Modelled from the spec (§4.1 UniquenessValidator; `compareUnique` is
referenced by the handlers but defined elsewhere in the repository):
returns `true` iff no value in the sequence repeats. -/
def compareUnique : List String → Bool
  | [] => true
  | x :: rest => !rest.contains x && compareUnique rest

/-- Split a character sequence on the path separator `/`. -/
def splitOnSlash : List Char → List (List Char)
  | [] => [[]]
  | c :: cs =>
    if c = '/' then [] :: splitOnSlash cs
    else
      match splitOnSlash cs with
      | [] => [[c]]
      | seg :: segs => (c :: seg) :: segs

/-- Modelled from the spec (§4.2: "identifiers are embedded in the link's
target path/suffix"; extraction "fails if a link reference cannot be parsed
into an identifier"): the identifier is the final path segment; an empty
final segment is unparseable. -/
def extractIdFromHref (href : String) : Option String :=
  match (splitOnSlash href.data).getLast? with
  | some s => if s.isEmpty then none else some (String.mk s)
  | none => none

/-- Modelled from the spec (§4.2 algorithm, second half; the routine is
referenced by the handlers but defined elsewhere in the repository): walk
`declared`, emitting identifiers found in the remaining remote identifiers
and removing them; append any remaining remote identifiers in the remote
response's own relative order. -/
def normalizeOrder : List String → List String → List String
  | [], remaining => remaining
  | d :: ds, remaining =>
    if d ∈ remaining then d :: normalizeOrder ds (remaining.erase d)
    else normalizeOrder ds remaining

/-- Modelled from the spec (§4.2 algorithm, first half): extract each
region identifier from its link reference, failing with the malformed-link
error on the first unparseable reference. -/
def extractRegionIds : List Link → Except Diag (List String)
  | [] => .ok []
  | l :: ls =>
    match extractIdFromHref l.href with
    | none => .error (.malformedLink l.href)
    | some i =>
      match extractRegionIds ls with
      | .error e => .error e
      | .ok is => .ok (i :: is)

/-- Modelled from the spec (§4.2; the routine is referenced at
`resource_cloud_account_vsphere.go:148,197` but defined elsewhere in the
repository): normalize the remote response's region identifiers to the
declared order. -/
def flattenAndNormalizeCloudAccountVsphereRegionIds
    (regions : List String) (account : CloudAccountVsphere) :
    Except Diag (List String) :=
  match extractRegionIds (account.Links.filter (fun l => l.rel = regionLinkRel)) with
  | .error e => .error e
  | .ok remoteIds => .ok (normalizeOrder regions remoteIds)

/-- Modelled from the spec (§4.3 Read: "filter links by a relation-type
marker indicating associated account, extract the referenced account's
identifier"; the routine is referenced by Read but defined elsewhere in the
repository).  Unparseable links contribute nothing here. -/
def flattenAssociatedCloudAccountIds (links : List Link) : List String :=
  (links.filter (fun l => l.rel = associatedAccountLinkRel)).filterMap
    (fun l => extractIdFromHref l.href)

/-- `resourceCloudAccountVsphereRead`
(`resource_cloud_account_vsphere.go:162-208`).  Returns the post-operation
record, the diagnostics (`none` = success) and the trace of network calls.
On not-found only the id is cleared (`d.SetId("")`) and success is
returned; on any other get failure the record is left untouched.  On
success every remote-derived field is overwritten (note: `password` is
never written, and the declared-order argument passed to the normalizer is
the payload's own `EnabledRegionIds`, exactly as at line 176/197). -/
def resourceCloudAccountVsphereRead (api : Api) (d : ResourceData) :
    ResourceData × Option Diag × List ApiCall :=
  let id := d.id
  match api.getAccount id with
  | .notFound => ({ d with id := "" }, none, [.getCall id])
  | .otherError e => (d, some (.apiError e), [.getCall id])
  | .ok acct =>
    let regions := acct.EnabledRegionIds
    let d1 : ResourceData := { d with
      associated_cloud_account_ids := flattenAssociatedCloudAccountIds acct.Links
      created_at := acct.CreatedAt
      custom_properties := acct.CustomProperties
      dcid := acct.Dcid
      description := acct.Description
      hostname := acct.HostName
      name := acct.Name
      org_id := acct.OrgID
      owner := acct.Owner
      regions := regions
      updated_at := acct.UpdatedAt
      username := acct.Username
      links := acct.Links }
    match flattenAndNormalizeCloudAccountVsphereRegionIds regions acct with
    | .error e => (d1, some e, [.getCall id])
    | .ok regionIds =>
      ({ d1 with region_ids := regionIds, tags := acct.Tags }, none, [.getCall id])

/-- The create request body built at
`resource_cloud_account_vsphere.go:128-140`. -/
def createSpecOf (d : ResourceData) (regions associatedCloudAccountIds : List String) :
    CloudAccountVsphereSpecification :=
  { acceptSelfSignedCertificate := d.accept_self_signed_cert
    associatedCloudAccountIds := associatedCloudAccountIds
    createDefaultZones := false
    dcid := d.dcid
    description := d.description
    hostName := d.hostname
    name := d.name
    password := d.password
    regionIds := regions
    tags := d.tags
    username := d.username }

/-- `resourceCloudAccountVsphereCreate`
(`resource_cloud_account_vsphere.go:105-160`).  `d.GetOk` on a set-valued
field reports absent for the empty set, so the uniqueness check is applied
only to nonempty declared lists, exactly as in the source. -/
def resourceCloudAccountVsphereCreate (api : Api) (d : ResourceData) :
    ResourceData × Option Diag × List ApiCall :=
  if !d.regions.isEmpty && !compareUnique d.regions then
    (d, some (.validationError "specified regions are not unique"), [])
  else if !d.associated_cloud_account_ids.isEmpty &&
      !compareUnique d.associated_cloud_account_ids then
    (d, some (.validationError "specified associated cloud account ids are not unique"), [])
  else
    let spec := createSpecOf d d.regions d.associated_cloud_account_ids
    match api.createAccount spec with
    | .err e => (d, some (.apiError e), [.createCall spec])
    | .ok payload =>
      match flattenAndNormalizeCloudAccountVsphereRegionIds d.regions payload with
      | .error e => (d, some e, [.createCall spec])
      | .ok regionIds =>
        let d1 : ResourceData :=
          { d with region_ids := regionIds, tags := d.tags, id := payload.ID }
        let r := resourceCloudAccountVsphereRead api d1
        (r.1, r.2.1, .createCall spec :: r.2.2)

/-- The update request body built at
`resource_cloud_account_vsphere.go:223-228`. -/
def updateSpecOf (d : ResourceData) (regions : List String) :
    UpdateCloudAccountVsphereSpecification :=
  { createDefaultZones := false
    description := d.description
    regionIds := regions
    tags := d.tags }

/-- `resourceCloudAccountVsphereUpdate`
(`resource_cloud_account_vsphere.go:210-234`). -/
def resourceCloudAccountVsphereUpdate (api : Api) (d : ResourceData) :
    ResourceData × Option Diag × List ApiCall :=
  let id := d.id
  if !d.regions.isEmpty && !compareUnique d.regions then
    (d, some (.validationError "specified regions are not unique"), [])
  else
    let spec := updateSpecOf d d.regions
    match api.updateAccount id spec with
    | .err e => (d, some (.apiError e), [.updateCall id spec])
    | .ok _ =>
      let r := resourceCloudAccountVsphereRead api d
      (r.1, r.2.1, .updateCall id spec :: r.2.2)

/-- `resourceCloudAccountVsphereDelete`
(`resource_cloud_account_vsphere.go:236-248`). -/
def resourceCloudAccountVsphereDelete (api : Api) (d : ResourceData) :
    ResourceData × Option Diag × List ApiCall :=
  let id := d.id
  match api.deleteAccount id with
  | .err e => (d, some (.apiError e), [.deleteCall id])
  | .ok _ => ({ d with id := "" }, none, [.deleteCall id])

/-- Modelled from the spec (§3: "`id` is empty exactly in the not yet
created / deleted lifecycle states"; the orchestration host removes a
record whose id was cleared): the record held in state after an operation,
`none` meaning Absent with all fields gone. -/
def stateAfterRead (d : ResourceData) : Option ResourceData :=
  if d.id = "" then none else some d

/-- Modelled from the spec (§4.3 Import; the passthrough importer at
`resource_cloud_account_vsphere.go:20-22` delegates to the host's import
machinery, which is not part of this repository): set `id`, delegate to
Read, and fail when the resulting record is absent or Read itself
failed. -/
def importResource (api : Api) (blank : ResourceData) (id : String) :
    Except Diag ResourceData :=
  let d0 : ResourceData := { blank with id := id }
  let r := resourceCloudAccountVsphereRead api d0
  match r.2.1 with
  | some e => .error e
  | none =>
    match stateAfterRead r.1 with
    | none => .error (.importNotFound id)
    | some d => .ok d

/-! ## Basic facts about the normalizer -/

/-- The normalizer's output is a permutation of the remote identifiers:
each emitted identifier is removed from the remaining pool and the pool's
leftover is appended. -/
theorem normalizeOrder_perm (ds : List String) :
    ∀ r : List String, (normalizeOrder ds r).Perm r := by
  induction ds with
  | nil => intro r; simp [normalizeOrder]
  | cons d ds ih =>
    intro r
    by_cases h : d ∈ r
    · simp only [normalizeOrder, if_pos h]
      exact ((ih (r.erase d)).cons d).trans (List.perm_cons_erase h).symm
    · simp only [normalizeOrder, if_neg h]
      exact ih r

/-- When the remote identifiers are a permutation of the declared order,
the normalizer returns the declared order exactly. -/
theorem normalizeOrder_of_perm (ds : List String) :
    ∀ r : List String, r.Perm ds → normalizeOrder ds r = ds := by
  induction ds with
  | nil =>
    intro r h
    simpa [normalizeOrder] using List.Perm.eq_nil h
  | cons d ds ih =>
    intro r h
    have hd : d ∈ r := h.mem_iff.mpr (List.mem_cons_self d ds)
    have he : (r.erase d).Perm ds := by
      have := h.erase d
      simpa [List.erase_cons_head] using this
    simp only [normalizeOrder, if_pos hd, ih (r.erase d) he]

/-- When every declared identifier is present remotely and the declared
order has no duplicates, the output is the declared order followed by the
leftover remote identifiers in their own relative order. -/
theorem normalizeOrder_eq_append_diff (ds : List String) :
    ∀ r : List String, ds.Nodup → (∀ d ∈ ds, d ∈ r) →
      normalizeOrder ds r = ds ++ r.diff ds := by
  induction ds with
  | nil => intro r _ _; simp [normalizeOrder]
  | cons d ds ih =>
    intro r hnd hmem
    have hd : d ∈ r := hmem d (List.mem_cons_self d ds)
    have hdds : d ∉ ds := (List.nodup_cons.mp hnd).1
    have hmem' : ∀ x ∈ ds, x ∈ r.erase d := by
      intro x hx
      have hne : x ≠ d := fun he => hdds (he ▸ hx)
      exact (List.mem_erase_of_ne hne).mpr (hmem x (List.mem_cons_of_mem d hx))
    simp only [normalizeOrder, if_pos hd, List.diff_cons,
      ih (r.erase d) (List.nodup_cons.mp hnd).2 hmem', List.cons_append]

/-- Erasing a prefix list from an append leaves the suffix. -/
theorem append_diff_self_left (l t : List String) : (l ++ t).diff l = t := by
  induction l with
  | nil => simp
  | cons a l ih => simpa [List.diff_cons] using ih

/-! ## Concrete fixtures used by witnesses and counterexamples -/

/-- A concrete remote account whose enabled regions come back as
`["r1", "r2"]` with the region links in that same order. -/
def demoAccount : CloudAccountVsphere :=
  { ID := "acct-1"
    CreatedAt := "2020-01-01"
    CustomProperties := []
    Dcid := ""
    Description := ""
    EnabledRegionIds := ["r1", "r2"]
    HostName := "host"
    Name := "acc"
    OrgID := ""
    Owner := ""
    Tags := []
    UpdatedAt := "2020-01-02"
    Username := "admin"
    Links := [⟨regionLinkRel, "/iaas/api/regions/r1"⟩,
              ⟨regionLinkRel, "/iaas/api/regions/r2"⟩] }

/-- A concrete remote API: creation succeeds with `demoAccount`, get finds
only `"acct-1"`, update succeeds, delete succeeds. -/
def demoApi : Api :=
  { createAccount := fun _ => .ok demoAccount
    getAccount := fun id => if id = "acct-1" then .ok demoAccount else .notFound
    updateAccount := fun _ _ => .ok demoAccount
    deleteAccount := fun _ => .ok () }

/-- The demo API with a failing delete endpoint. -/
def demoFailDeleteApi : Api :=
  { demoApi with deleteAccount := fun _ => .err "boom" }

/-- An empty record (all schema zero values, no id: the Absent state). -/
def blankRecord : ResourceData :=
  { id := ""
    hostname := ""
    name := ""
    password := ""
    username := ""
    regions := []
    accept_self_signed_cert := false
    associated_cloud_account_ids := []
    dcid := ""
    description := ""
    tags := []
    created_at := ""
    custom_properties := []
    links := []
    org_id := ""
    owner := ""
    region_ids := []
    updated_at := "" }

/-- The configuration of the end-to-end Create scenario: declared regions
`["r2", "r1"]`. -/
def demoCreateConfig : ResourceData :=
  { blankRecord with
    hostname := "host"
    name := "acc"
    password := "pw"
    username := "admin"
    regions := ["r2", "r1"] }

/-- A Present record whose declared hostname differs from the remote's. -/
def demoDriftedRecord : ResourceData :=
  { demoCreateConfig with id := "acct-1", hostname := "declared-host" }

/-- A Present record whose id is unknown to `demoApi`. -/
def goneRecord : ResourceData := { blankRecord with id := "gone" }

/-- A remote account with an extra third region `r3` beyond the declared
`["r2", "r1"]`. -/
def demoAccountExtra : CloudAccountVsphere :=
  { demoAccount with
    EnabledRegionIds := ["r1", "r2", "r3"]
    Links := [⟨regionLinkRel, "/iaas/api/regions/r1"⟩,
              ⟨regionLinkRel, "/iaas/api/regions/r2"⟩,
              ⟨regionLinkRel, "/iaas/api/regions/r3"⟩] }

/-! ## Helper lemmas about the handlers -/

/-- `compareUnique` decides exactly freedom from duplicates. -/
theorem compareUnique_iff (l : List String) : compareUnique l = true ↔ l.Nodup := by
  induction l with
  | nil => simp [compareUnique]
  | cons x rest ih =>
    simp only [compareUnique, Bool.and_eq_true, Bool.not_eq_true', ih, List.nodup_cons,
      List.contains_eq_any_beq, List.any_eq_false, beq_iff_eq]
    constructor
    · rintro ⟨h1, h2⟩
      exact ⟨fun hm => h1 x hm rfl, h2⟩
    · rintro ⟨h1, h2⟩
      exact ⟨fun a ha he => h1 (he ▸ ha), h2⟩

/-- Every Read issues exactly one network call: the get-by-id request. -/
theorem read_calls (api : Api) (d : ResourceData) :
    (resourceCloudAccountVsphereRead api d).2.2 = [ApiCall.getCall d.id] := by
  unfold resourceCloudAccountVsphereRead
  rcases hg : api.getAccount d.id with acct | _ | e
  · rcases hf : flattenAndNormalizeCloudAccountVsphereRegionIds acct.EnabledRegionIds acct
      with e | ids <;> simp [hg, hf]
  · simp [hg]
  · simp [hg]

/-- No branch of Read writes the password field. -/
theorem read_preserves_password (api : Api) (d : ResourceData) :
    (resourceCloudAccountVsphereRead api d).1.password = d.password := by
  unfold resourceCloudAccountVsphereRead
  rcases hg : api.getAccount d.id with acct | _ | e
  · rcases hf : flattenAndNormalizeCloudAccountVsphereRegionIds acct.EnabledRegionIds acct
      with e | ids <;> simp [hg, hf]
  · simp [hg]
  · simp [hg]

/-! ## Claim theorems -/

/-- **C1** (amended): order-invariance of the region-order normalizer.  For
every declared ordering `regions` with no duplicates and every remote
response whose region links parse to exactly the identifiers of `regions`
in any permutation, the normalizer's output equals `regions` exactly.  (The
end-to-end consequence claimed for Create does not hold: the final Read
re-normalizes `region_ids` against the remote's own enabled-region order,
see the counterexample.) -/
theorem c1_normalizer_order_invariance (regions remoteIds : List String)
    (acct : CloudAccountVsphere) (h1 : regions.Nodup)
    (he : extractRegionIds (acct.Links.filter (fun l => l.rel = regionLinkRel)) =
      .ok remoteIds)
    (h2 : remoteIds.Perm regions) :
    flattenAndNormalizeCloudAccountVsphereRegionIds regions acct = .ok regions := by
  simp only [flattenAndNormalizeCloudAccountVsphereRegionIds, he,
    normalizeOrder_of_perm regions remoteIds h2]

/-- Witness for C1: declared `["r2", "r1"]`, remote links yield
`["r1", "r2"]`, normalizer output `["r2", "r1"]`. -/
theorem c1_normalizer_order_invariance_witness :
    (["r2", "r1"] : List String).Nodup ∧
    extractRegionIds (demoAccount.Links.filter (fun l => l.rel = regionLinkRel)) =
      .ok ["r1", "r2"] ∧
    (["r1", "r2"] : List String).Perm ["r2", "r1"] ∧
    flattenAndNormalizeCloudAccountVsphereRegionIds ["r2", "r1"] demoAccount =
      .ok ["r2", "r1"] :=
  ⟨by decide, by rfl, by decide,
    c1_normalizer_order_invariance ["r2", "r1"] ["r1", "r2"] demoAccount
      (by decide) (by rfl) (by decide)⟩

/-- Counterexample for C1's end-to-end consequence: Create with declared
regions `["r2", "r1"]` against a remote that returns links for `r1` then
`r2` ends with `region_ids = ["r1", "r2"]`, not `["r2", "r1"]`, because the
trailing Read passes the payload's own `EnabledRegionIds` as the declared
order to the normalizer (`resource_cloud_account_vsphere.go:176,197`). -/
theorem c1_end_to_end_counterexample :
    (resourceCloudAccountVsphereCreate demoApi demoCreateConfig).1.region_ids =
      ["r1", "r2"] ∧
    (resourceCloudAccountVsphereCreate demoApi demoCreateConfig).1.region_ids ≠
      ["r2", "r1"] :=
  ⟨by decide, by decide⟩

/-- **C5**: completeness of the region-order normalizer.  When the remote
link set parses to a permutation of the declared regions plus one extra
identifier `rx`, the output is `regions` followed by `rx`, and the output
is the same multiset as the remote identifiers. -/
theorem c5_normalizer_completeness (regions remoteIds : List String) (rx : String)
    (acct : CloudAccountVsphere) (h1 : regions.Nodup) (h2 : rx ∉ regions)
    (he : extractRegionIds (acct.Links.filter (fun l => l.rel = regionLinkRel)) =
      .ok remoteIds)
    (h3 : remoteIds.Perm (regions ++ [rx])) :
    flattenAndNormalizeCloudAccountVsphereRegionIds regions acct =
      .ok (regions ++ [rx]) ∧
    (regions ++ [rx]).Perm remoteIds := by
  have hmem : ∀ d ∈ regions, d ∈ remoteIds := fun d hd =>
    h3.mem_iff.mpr (List.mem_append_left _ hd)
  have hdiff : remoteIds.diff regions = [rx] := by
    have hperm : (remoteIds.diff regions).Perm ((regions ++ [rx]).diff regions) :=
      h3.diff_right regions
    rw [append_diff_self_left] at hperm
    exact List.perm_singleton.mp hperm
  have hnorm : normalizeOrder regions remoteIds = regions ++ [rx] := by
    rw [normalizeOrder_eq_append_diff regions remoteIds h1 hmem, hdiff]
  refine ⟨?_, ?_⟩
  · simp only [flattenAndNormalizeCloudAccountVsphereRegionIds, he, hnorm]
  · rw [← hnorm]
    exact normalizeOrder_perm regions remoteIds

/-- Witness for C5: declared `["r2", "r1"]`, remote links yield
`["r1", "r2", "r3"]`, output `["r2", "r1", "r3"]`. -/
theorem c5_normalizer_completeness_witness :
    ((["r2", "r1"] : List String).Nodup ∧ "r3" ∉ (["r2", "r1"] : List String) ∧
      extractRegionIds (demoAccountExtra.Links.filter (fun l => l.rel = regionLinkRel)) =
        .ok ["r1", "r2", "r3"] ∧
      (["r1", "r2", "r3"] : List String).Perm (["r2", "r1"] ++ ["r3"])) ∧
    flattenAndNormalizeCloudAccountVsphereRegionIds ["r2", "r1"] demoAccountExtra =
      .ok (["r2", "r1"] ++ ["r3"]) ∧
    ((["r2", "r1"] : List String) ++ ["r3"]).Perm ["r1", "r2", "r3"] :=
  ⟨⟨by decide, by decide, by rfl, by decide⟩,
    c5_normalizer_completeness ["r2", "r1"] ["r1", "r2", "r3"] "r3" demoAccountExtra
      (by decide) (by decide) (by rfl) (by decide)⟩

/-- **C8**: idempotence of the region-order normalizer.  Feeding the
normalizer's own output back through it with the same declared order is a
no-op, for every declared order and every input identifier list. -/
theorem c8_normalizer_idempotent (order x : List String) :
    normalizeOrder order (normalizeOrder order x) = normalizeOrder order x := by
  induction order generalizing x with
  | nil => simp [normalizeOrder]
  | cons d ds ih =>
    by_cases h : d ∈ x
    · simp only [normalizeOrder, if_pos h, List.mem_cons, true_or, if_true,
        List.erase_cons_head, ih (x.erase d)]
    · have hnot : d ∉ normalizeOrder ds x := fun hm =>
        h ((normalizeOrder_perm ds x).mem_iff.mp hm)
      simp only [normalizeOrder, if_neg h, if_neg hnot, ih x]

/-- **C2**: for every id not present on the remote side, Import (set the
id, then delegate to Read) fails with a not-found-derived error, so no
record is produced (the record remains Absent) — unlike a routine Read, for
which not-found is success. -/
theorem c2_import_not_found_fails (api : Api) (blank : ResourceData) (id : String)
    (h : api.getAccount id = GetResult.notFound) :
    importResource api blank id = .error (.importNotFound id) := by
  unfold importResource resourceCloudAccountVsphereRead
  simp [h, stateAfterRead]

/-- Witness for C2: importing `"acct-123"`, which `demoApi` does not know,
fails with the not-found import error. -/
theorem c2_import_not_found_fails_witness :
    demoApi.getAccount "acct-123" = GetResult.notFound ∧
    importResource demoApi blankRecord "acct-123" =
      .error (.importNotFound "acct-123") :=
  ⟨by rfl, c2_import_not_found_fails demoApi blankRecord "acct-123" (by rfl)⟩

/-- **C3**: for every Present record, when the get-by-id request reports
not-found, Read returns success (no error), clears the id, and the record
held in state afterwards is Absent (removed, all fields gone). -/
theorem c3_read_not_found_absent (api : Api) (d : ResourceData)
    (hp : d.id ≠ "") (h : api.getAccount d.id = GetResult.notFound) :
    (resourceCloudAccountVsphereRead api d).2.1 = none ∧
    (resourceCloudAccountVsphereRead api d).1.id = "" ∧
    stateAfterRead (resourceCloudAccountVsphereRead api d).1 = none := by
  unfold resourceCloudAccountVsphereRead
  simp [h, stateAfterRead]

/-- Witness for C3: a Present record with id `"gone"` read against
`demoApi` ends Absent with no error. -/
theorem c3_read_not_found_absent_witness :
    (goneRecord.id ≠ "" ∧ demoApi.getAccount goneRecord.id = GetResult.notFound) ∧
    (resourceCloudAccountVsphereRead demoApi goneRecord).2.1 = none ∧
    (resourceCloudAccountVsphereRead demoApi goneRecord).1.id = "" ∧
    stateAfterRead (resourceCloudAccountVsphereRead demoApi goneRecord).1 = none :=
  ⟨⟨by decide, by rfl⟩, c3_read_not_found_absent demoApi goneRecord (by decide) (by rfl)⟩

/-- **C4**: for every Absent configuration whose `regions` or
`associated_cloud_account_ids` contains a repeated value, Create returns a
duplicate-value validation error, performs zero network calls, and leaves
the record unchanged and Absent with no id assigned. -/
theorem c4_create_duplicate_validation (api : Api) (d : ResourceData)
    (hp : d.id = "")
    (hdup : ¬d.regions.Nodup ∨ ¬d.associated_cloud_account_ids.Nodup) :
    (∃ m, (resourceCloudAccountVsphereCreate api d).2.1 =
      some (Diag.validationError m)) ∧
    (resourceCloudAccountVsphereCreate api d).2.2 = [] ∧
    (resourceCloudAccountVsphereCreate api d).1 = d ∧
    (resourceCloudAccountVsphereCreate api d).1.id = "" := by
  by_cases hr : d.regions.Nodup
  · have ha : ¬d.associated_cloud_account_ids.Nodup := hdup.resolve_left (not_not_intro hr)
    have hcr : compareUnique d.regions = true := (compareUnique_iff _).mpr hr
    have hca : compareUnique d.associated_cloud_account_ids = false := by
      cases hc : compareUnique d.associated_cloud_account_ids
      · rfl
      · exact absurd ((compareUnique_iff _).mp hc) ha
    have hne : d.associated_cloud_account_ids.isEmpty = false := by
      cases hl : d.associated_cloud_account_ids with
      | nil => exact absurd (by rw [hl]; exact List.nodup_nil) ha
      | cons a as => rfl
    refine ⟨⟨"specified associated cloud account ids are not unique", ?_⟩, ?_, ?_, ?_⟩ <;>
      simp [resourceCloudAccountVsphereCreate, hcr, hca, hne, hp]
  · have hcr : compareUnique d.regions = false := by
      cases hc : compareUnique d.regions
      · rfl
      · exact absurd ((compareUnique_iff _).mp hc) hr
    have hne : d.regions.isEmpty = false := by
      cases hl : d.regions with
      | nil => exact absurd (by rw [hl]; exact List.nodup_nil) hr
      | cons a as => rfl
    refine ⟨⟨"specified regions are not unique", ?_⟩, ?_, ?_, ?_⟩ <;>
      simp [resourceCloudAccountVsphereCreate, hcr, hne, hp]

/-- Witness for C4: duplicate declared regions `["us-east", "us-east"]`
abort Create with a validation error and an empty call trace. -/
theorem c4_create_duplicate_validation_witness :
    (({ blankRecord with regions := ["us-east", "us-east"] } : ResourceData).id = "" ∧
      (¬(["us-east", "us-east"] : List String).Nodup ∨
        ¬([] : List String).Nodup)) ∧
    (∃ m, (resourceCloudAccountVsphereCreate demoApi
        { blankRecord with regions := ["us-east", "us-east"] }).2.1 =
      some (Diag.validationError m)) ∧
    (resourceCloudAccountVsphereCreate demoApi
      { blankRecord with regions := ["us-east", "us-east"] }).2.2 = [] ∧
    (resourceCloudAccountVsphereCreate demoApi
        { blankRecord with regions := ["us-east", "us-east"] }).1 =
      { blankRecord with regions := ["us-east", "us-east"] } ∧
    (resourceCloudAccountVsphereCreate demoApi
      { blankRecord with regions := ["us-east", "us-east"] }).1.id = "" :=
  ⟨⟨by decide, by decide⟩,
    c4_create_duplicate_validation demoApi
      { blankRecord with regions := ["us-east", "us-east"] } (by decide) (by decide)⟩

/-- **C6** (amended): the password field is write-only — no branch of Read
ever overwrites it; the other user-declared fields are not preserved but
refreshed from the remote payload on a successful get (shown here for
`hostname`, which Read sets to the payload's `HostName`). -/
theorem c6_read_password_write_only (api : Api) (d : ResourceData) :
    (resourceCloudAccountVsphereRead api d).1.password = d.password ∧
    (∀ acct, api.getAccount d.id = GetResult.ok acct →
      (resourceCloudAccountVsphereRead api d).1.hostname = acct.HostName) := by
  refine ⟨read_preserves_password api d, ?_⟩
  intro acct hg
  unfold resourceCloudAccountVsphereRead
  rcases hf : flattenAndNormalizeCloudAccountVsphereRegionIds acct.EnabledRegionIds acct
    with e | ids <;> simp [hg, hf]

/-- Witness for C6: reading the drifted record leaves its password intact
while its hostname is overwritten with the remote's. -/
theorem c6_read_password_write_only_witness :
    demoApi.getAccount demoDriftedRecord.id = GetResult.ok demoAccount ∧
    (resourceCloudAccountVsphereRead demoApi demoDriftedRecord).1.password =
      demoDriftedRecord.password ∧
    (resourceCloudAccountVsphereRead demoApi demoDriftedRecord).1.hostname =
      demoAccount.HostName :=
  ⟨by rfl, (c6_read_password_write_only demoApi demoDriftedRecord).1,
    (c6_read_password_write_only demoApi demoDriftedRecord).2 demoAccount (by rfl)⟩

/-- Counterexample for C6 as stated: a successful Read does mutate a
user-declared field.  The drifted record declares hostname
`"declared-host"`; the remote returns `"host"`; after a successful Read the
record's hostname is no longer the declared one. -/
theorem c6_read_mutates_declared_counterexample :
    (resourceCloudAccountVsphereRead demoApi demoDriftedRecord).2.1 = none ∧
    (resourceCloudAccountVsphereRead demoApi demoDriftedRecord).1.hostname ≠
      demoDriftedRecord.hostname :=
  ⟨by rfl, by decide⟩

/-- **C7**: atomicity of Delete on failure.  For every Present record, when
the delete-by-id request fails, the error is surfaced, the record is left
completely unchanged, and it remains Present. -/
theorem c7_delete_failure_atomic (api : Api) (d : ResourceData) (e : String)
    (hp : d.id ≠ "") (h : api.deleteAccount d.id = .err e) :
    (resourceCloudAccountVsphereDelete api d).1 = d ∧
    (resourceCloudAccountVsphereDelete api d).2.1 = some (Diag.apiError e) ∧
    (resourceCloudAccountVsphereDelete api d).1.id ≠ "" := by
  unfold resourceCloudAccountVsphereDelete
  simp [h, hp]

/-- Witness for C7: deleting the Present drifted record against the
failing-delete API surfaces `"boom"` and changes nothing. -/
theorem c7_delete_failure_atomic_witness :
    (demoDriftedRecord.id ≠ "" ∧
      demoFailDeleteApi.deleteAccount demoDriftedRecord.id = .err "boom") ∧
    (resourceCloudAccountVsphereDelete demoFailDeleteApi demoDriftedRecord).1 =
      demoDriftedRecord ∧
    (resourceCloudAccountVsphereDelete demoFailDeleteApi demoDriftedRecord).2.1 =
      some (Diag.apiError "boom") ∧
    (resourceCloudAccountVsphereDelete demoFailDeleteApi demoDriftedRecord).1.id ≠ "" :=
  ⟨⟨by decide, by rfl⟩,
    c7_delete_failure_atomic demoFailDeleteApi demoDriftedRecord "boom"
      (by decide) (by rfl)⟩

/-- **C9**: Update validates `regions` for uniqueness (a duplicate aborts
with the validation error before any network call); otherwise the one
update request it sends carries exactly the declared description, regions
and tags (plus the always-false default-zones flag, the body's only other
field), and on success Update delegates its outcome to a fresh Read. -/
theorem c9_update_sends_declared_fields (api : Api) (d : ResourceData) :
    (¬d.regions.Nodup →
      (resourceCloudAccountVsphereUpdate api d).2.1 =
        some (.validationError "specified regions are not unique") ∧
      (resourceCloudAccountVsphereUpdate api d).2.2 = []) ∧
    (d.regions.Nodup →
      updateSpecOf d d.regions =
        { createDefaultZones := false, description := d.description,
          regionIds := d.regions, tags := d.tags } ∧
      (resourceCloudAccountVsphereUpdate api d).2.2.head? =
        some (.updateCall d.id (updateSpecOf d d.regions)) ∧
      (∀ acct, api.updateAccount d.id (updateSpecOf d d.regions) = .ok acct →
        (resourceCloudAccountVsphereUpdate api d).1 =
          (resourceCloudAccountVsphereRead api d).1 ∧
        (resourceCloudAccountVsphereUpdate api d).2.1 =
          (resourceCloudAccountVsphereRead api d).2.1)) := by
  constructor
  · intro hr
    have hcr : compareUnique d.regions = false := by
      cases hc : compareUnique d.regions
      · rfl
      · exact absurd ((compareUnique_iff _).mp hc) hr
    have hne : d.regions.isEmpty = false := by
      cases hl : d.regions with
      | nil => exact absurd (by rw [hl]; exact List.nodup_nil) hr
      | cons a as => rfl
    constructor <;> simp [resourceCloudAccountVsphereUpdate, hcr, hne]
  · intro hr
    have hcr : compareUnique d.regions = true := (compareUnique_iff _).mpr hr
    refine ⟨rfl, ?_, ?_⟩
    · rcases hu : api.updateAccount d.id (updateSpecOf d d.regions) with acct | e <;>
        simp [resourceCloudAccountVsphereUpdate, hcr, hu, read_calls]
    · intro acct hu
      constructor <;> simp [resourceCloudAccountVsphereUpdate, hcr, hu]

/-- Witness for C9: updating the drifted record through `demoApi` issues
the update call with exactly the declared fields and then delegates to
Read. -/
theorem c9_update_sends_declared_fields_witness :
    demoDriftedRecord.regions.Nodup ∧
    demoApi.updateAccount demoDriftedRecord.id
      (updateSpecOf demoDriftedRecord demoDriftedRecord.regions) = .ok demoAccount ∧
    updateSpecOf demoDriftedRecord demoDriftedRecord.regions =
      { createDefaultZones := false, description := demoDriftedRecord.description,
        regionIds := demoDriftedRecord.regions, tags := demoDriftedRecord.tags } ∧
    (resourceCloudAccountVsphereUpdate demoApi demoDriftedRecord).2.2.head? =
      some (.updateCall demoDriftedRecord.id
        (updateSpecOf demoDriftedRecord demoDriftedRecord.regions)) ∧
    (resourceCloudAccountVsphereUpdate demoApi demoDriftedRecord).1 =
      (resourceCloudAccountVsphereRead demoApi demoDriftedRecord).1 ∧
    (resourceCloudAccountVsphereUpdate demoApi demoDriftedRecord).2.1 =
      (resourceCloudAccountVsphereRead demoApi demoDriftedRecord).2.1 :=
  ⟨by decide, by rfl,
    ((c9_update_sends_declared_fields demoApi demoDriftedRecord).2 (by decide)).1,
    ((c9_update_sends_declared_fields demoApi demoDriftedRecord).2 (by decide)).2.1,
    (((c9_update_sends_declared_fields demoApi demoDriftedRecord).2 (by decide)).2.2
      demoAccount (by rfl)).1,
    (((c9_update_sends_declared_fields demoApi demoDriftedRecord).2 (by decide)).2.2
      demoAccount (by rfl)).2⟩

/-- **C10**: every request body built by Create and by Update carries
`CreateDefaultZones = false`, for every configuration and every remote
behaviour — the component never asks the remote API to create default
zones. -/
theorem c10_never_create_default_zones (api : Api) (d : ResourceData) :
    (∀ spec, ApiCall.createCall spec ∈ (resourceCloudAccountVsphereCreate api d).2.2 →
      spec.createDefaultZones = false) ∧
    (∀ id spec,
      ApiCall.updateCall id spec ∈ (resourceCloudAccountVsphereUpdate api d).2.2 →
      spec.createDefaultZones = false) := by
  constructor
  · intro spec hmem
    unfold resourceCloudAccountVsphereCreate at hmem
    split at hmem
    · simp at hmem
    · split at hmem
      · simp at hmem
      · rcases hc : api.createAccount (createSpecOf d d.regions d.associated_cloud_account_ids)
          with payload | e
        · rcases hf : flattenAndNormalizeCloudAccountVsphereRegionIds d.regions payload
            with e | ids
          · simp [hc, hf] at hmem
            rw [hmem]
            rfl
          · simp [hc, hf, read_calls] at hmem
            rw [hmem]
            rfl
        · simp [hc] at hmem
          rw [hmem]
          rfl
  · intro id spec hmem
    unfold resourceCloudAccountVsphereUpdate at hmem
    split at hmem
    · simp at hmem
    · rcases hu : api.updateAccount d.id (updateSpecOf d d.regions) with acct | e
      · simp [hu, read_calls] at hmem
        rw [hmem.2]
        rfl
      · simp [hu] at hmem
        rw [hmem.2]
        rfl

/-- Witness for C10: the concrete bodies sent by the demo Create and Update
runs have the default-zones flag false. -/
theorem c10_never_create_default_zones_witness :
    (ApiCall.createCall (createSpecOf demoCreateConfig ["r2", "r1"] []) ∈
        (resourceCloudAccountVsphereCreate demoApi demoCreateConfig).2.2 ∧
      (createSpecOf demoCreateConfig ["r2", "r1"] []).createDefaultZones = false) ∧
    (ApiCall.updateCall "acct-1" (updateSpecOf demoDriftedRecord ["r2", "r1"]) ∈
        (resourceCloudAccountVsphereUpdate demoApi demoDriftedRecord).2.2 ∧
      (updateSpecOf demoDriftedRecord ["r2", "r1"]).createDefaultZones = false) :=
  ⟨⟨by decide,
      (c10_never_create_default_zones demoApi demoCreateConfig).1
        (createSpecOf demoCreateConfig ["r2", "r1"] []) (by decide)⟩,
    ⟨by decide,
      (c10_never_create_default_zones demoApi demoDriftedRecord).2
        "acct-1" (updateSpecOf demoDriftedRecord ["r2", "r1"]) (by decide)⟩⟩

end VraVsphere
